import Mathlib

/-!
Verification development for the pw-capture capture-session bridge
(src/client/src/stream.rs and src/client/src/client.rs).

The Rust code is shallowly embedded: pointers to transport buffers become
an abstract handle type, the null user-data pointer becomes an Option,
the bounded crossbeam channel becomes a list with an explicit capacity
check, and the per-stream mutable state owned by the IPC loop thread
becomes an explicit state record threaded through the operations.
Transport-driven callbacks (state_changed, param_changed, add_buffer,
remove_buffer, process) and caller-thread operations (dequeue_buffer,
queue_buffer_process, terminate) become events of a step function, so
that reachable states are exactly the results of running event lists
from the initial state.
-/

namespace PwCapture

/-- Models `const MAX_PROCESS_BUFFERS: usize = 4` (stream.rs line 22),
the capacity of the bounded crossbeam channel used for buffer handoff. -/
def MAX_PROCESS_BUFFERS : Nat := 4

/-- spa_sys constant: `SPA_DATA_Invalid` (value 0 in the spa headers). -/
def SPA_DATA_Invalid : Nat := 0

/-- spa_sys constant: `SPA_DATA_MemFd` (value 2 in the spa headers). -/
def SPA_DATA_MemFd : Nat := 2

/-- spa_sys constant: `SPA_DATA_DmaBuf` (value 3 in the spa headers). -/
def SPA_DATA_DmaBuf : Nat := 3

/-- Models `BufferHandle`, an abstract identifier for one transport-owned
`pw_buffer` slot (a non-null pointer in the source). -/
abbrev Handle := Nat

/-- Models `BufferUserHandle`, the backend-defined payload (a GPU texture id
or Vulkan image handle in the source); its concrete contents are irrelevant
to the bridge logic, so it is embedded as an abstract number. -/
abbrev UserHandle := Nat

/-- Models the `spa_chunk` record written by `on_add_buffer`. -/
structure SpaChunk where
  offset : Nat
  size : Nat
  stride : Nat
deriving DecidableEq, Repr

/-- Models one `spa_data` element of a transport buffer.  The `data` raw
pointer is embedded as the Boolean `dataNull` (the code only ever stores
null there). -/
structure SpaData where
  fd : Int
  dataNull : Bool
  mapoffset : Nat
  maxsize : Nat
  type_ : Nat
  chunk : SpaChunk
deriving DecidableEq, Repr

/-- Models one transport-owned `pw_buffer`: its identity, its user-data
pointer (`none` models the null pointer, `some u` models a pointer to a
stamped `BufferUserHandle`), and its spa data planes. -/
structure RawBuffer where
  handle : Handle
  userData : Option UserHandle
  datas : List SpaData
deriving DecidableEq, Repr

/-- Models `BufferPlaneInfo` from stream.rs. -/
structure BufferPlaneInfo where
  fd : Int
  offset : Nat
  size : Nat
  stride : Nat
deriving DecidableEq, Repr

/-- Models `BufferInfo` from stream.rs, the record returned by the backend
`add_buffer` callback. -/
structure BufferInfo where
  isDmaBuf : Bool
  planes : List BufferPlaneInfo
  userHandle : UserHandle
deriving DecidableEq, Repr

/-- Result of the `on_add_buffer` callback: either the updated buffer, or a
process abort caused by the `assert_eq!` on plane counts. -/
inductive AddBufferResult where
  | ok (b : RawBuffer)
  | panic
deriving DecidableEq, Repr

/-- Models the invalidation loop of `on_add_buffer` when the backend returns
no `BufferInfo`: `data.fd = -1; data.data = ptr::null_mut(); data.type_ =
SPA_DATA_Invalid` (the chunk is left untouched). -/
def markInvalid (d : SpaData) : SpaData :=
  { d with fd := -1, dataNull := true, type_ := SPA_DATA_Invalid }

/-- Models the fill loop of `on_add_buffer` copying one `BufferPlaneInfo`
into one `spa_data` and its chunk. -/
def fillData (dataType : Nat) (d : SpaData) (p : BufferPlaneInfo) : SpaData :=
  { d with
      fd := p.fd
      dataNull := true
      mapoffset := p.offset
      maxsize := p.size
      type_ := dataType
      chunk := { offset := p.offset, size := p.size, stride := p.stride } }

/-- Models `on_add_buffer` (stream.rs lines 472 to 527).  The user-data
pointer is first set to null; if the backend returns no `BufferInfo` the
planes are marked invalid and the buffer is left unstamped; otherwise the
source asserts `spa_buffer.n_datas == info.planes.len()` with `assert_eq!`
(a panic on mismatch, modelled by the `panic` result), then fills every
plane and stamps the user handle. -/
def onAddBuffer (b : RawBuffer) (info? : Option BufferInfo) : AddBufferResult :=
  let b0 : RawBuffer := { b with userData := none }
  match info? with
  | none => .ok { b0 with datas := b0.datas.map markInvalid }
  | some info =>
      let dataType := if info.isDmaBuf then SPA_DATA_DmaBuf else SPA_DATA_MemFd
      if b0.datas.length = info.planes.length then
        .ok { b0 with
                datas := (b0.datas.zip info.planes).map fun pr => fillData dataType pr.1 pr.2
                userData := some info.userHandle }
      else
        .panic

/-- Models `pw::stream::StreamState` (the error message carried by the
`Error` case is dropped). -/
inductive PwStreamState where
  | unconnected
  | connecting
  | paused
  | streaming
  | error
deriving DecidableEq, Repr

/-- Result type of `StreamMethods::terminate` (`Result<()>` in the source). -/
inductive TermResult where
  | ok
  | err
deriving DecidableEq, Repr

/-- Result of `queue_buffer_process`.  `ok` models `Ok(())`; `blocked`
models `crossbeam_channel::Sender::send` blocking because the bounded
channel is full (the call does not return until capacity frees, it is
never an error); `err` models the error path (`send` on a disconnected
channel, or a `trigger_process` failure), which does not occur while the
stream and its listener are alive, so the model never produces it. -/
inductive SendOutcome where
  | ok
  | blocked
  | err
deriving DecidableEq, Repr

/-- The mutable per-stream state owned by the IPC loop thread: the
transport lifecycle state and driving role as reported by the `pw_stream`
(`stream.state()`, `stream.is_driving()`), the transport buffer pool split
into dequeueable buffers (`avail`, in dequeue order) and buffers currently
held by the caller (`held`), the bounded handoff FIFO (`queue`, the
crossbeam channel contents), and the `on_terminate` callback slot.
`termFires` and `processed` are ghost fields recording how often
`on_terminate` fired and which handles `process_buffer` was invoked on. -/
structure StreamSt where
  pwState : PwStreamState
  driving : Bool
  avail : List RawBuffer
  held : List RawBuffer
  queue : List Handle
  onTerminate : Bool
  termFires : Nat
  processed : List Handle
deriving DecidableEq, Repr

/-- The state of a freshly created stream: unconnected, not driving, empty
pool and FIFO, `on_terminate` callback installed and never fired. -/
def streamInit : StreamSt :=
  { pwState := .unconnected
    driving := false
    avail := []
    held := []
    queue := []
    onTerminate := true
    termFires := 0
    processed := [] }

/-- Models `StreamImpl::dequeue_buffer` (stream.rs lines 335 to 362):
return `none` unless the transport reports the streaming state and the
driving role; `dequeue_raw_buffer` yields the head of `avail` (`none`
when empty, "out of buffer"); a buffer whose user-data pointer is null is
logged broken and immediately given back with `queue_raw_buffer`, and the
call returns `none`; otherwise the pair of handle and stamped user handle
is returned and the buffer is now held by the caller. -/
def dequeueBuffer (s : StreamSt) : StreamSt × Option (Handle × UserHandle) :=
  match s.pwState with
  | .streaming =>
      if !s.driving then (s, none)
      else
        match s.avail with
        | [] => (s, none)
        | b :: rest =>
            match b.userData with
            | none => ({ s with avail := rest ++ [b] }, none)
            | some u => ({ s with avail := rest, held := s.held ++ [b] }, some (b.handle, u))
  | _ => (s, none)

/-- Models `StreamImpl::queue_buffer_process` (stream.rs lines 364 to 375):
when not driving the body is skipped and `Ok(())` is returned; when driving
the handle is sent into the bounded FIFO (capacity `MAX_PROCESS_BUFFERS`;
a full channel blocks the sender) and `trigger_process` is invoked (its
success is modelled, see `SendOutcome`). -/
def queueBufferProcess (s : StreamSt) (h : Handle) : StreamSt × SendOutcome :=
  if s.driving then
    if s.queue.length < MAX_PROCESS_BUFFERS then
      ({ s with queue := s.queue ++ [h] }, .ok)
    else
      (s, .blocked)
  else
    (s, .ok)

/-- Models `StreamMethods::terminate` (stream.rs lines 328 to 333): the
transport disconnect result is ignored (lifecycle changes arrive later as
state-changed events), the `on_terminate` callback is taken out of its slot
and fired if still present, and the call always returns `Ok(())`. -/
def terminate (s : StreamSt) : StreamSt × TermResult :=
  if s.onTerminate then
    ({ s with onTerminate := false, termFires := s.termFires + 1 }, .ok)
  else
    (s, .ok)

/-- Iterated terminate requests. -/
def terminateN : Nat → StreamSt → StreamSt
  | 0, s => s
  | n + 1, s => terminateN n (terminate s).1

/-- Models one invocation of the `process` listener callback (stream.rs
lines 742 to 748 driving `on_process_buffer`, lines 608 to 665): pop one
handle from the handoff FIFO (warn and do nothing when none is queued);
a buffer whose user-data pointer is null is logged broken and the callback
returns early without requeueing; otherwise `process_buffer` runs on the
stamped user handle and the raw buffer is queued back to the transport. -/
def onProcess (s : StreamSt) : StreamSt :=
  match s.queue with
  | [] => s
  | h :: rest =>
      let s1 := { s with queue := rest }
      match s1.held.find? fun b => b.handle = h with
      | none => s1
      | some b =>
          match b.userData with
          | none => s1
          | some _ =>
              { s1 with
                  held := s1.held.filter fun b2 => b2.handle ≠ h
                  avail := s1.avail ++ [b]
                  processed := s1.processed ++ [h] }

/-- Events of the bridge: transport-driven callbacks and caller-thread
operations.  `addBuffer` carries the fresh buffer identity, its spa data
planes as handed over by the transport, and the backend `add_buffer`
result; `removeBuffer` removes a transport buffer (the transport removes
each physical buffer exactly once). -/
inductive Ev where
  | stateChanged (new : PwStreamState)
  | setDriving (b : Bool)
  | addBuffer (h : Handle) (datas : List SpaData) (info? : Option BufferInfo)
  | removeBuffer (h : Handle)
  | dequeue
  | queueProc (h : Handle)
  | process
  | terminateReq
deriving DecidableEq, Repr

/-- One step of the bridge state machine.  The `stateChanged` case models
the state-changed listener (stream.rs lines 710 to 726): on `Paused` the
stream is flushed and the handoff FIFO drained without processing.  A
panicking `addBuffer` (plane-count assert) leaves no further states; it is
modelled as a stutter step. -/
def step (s : StreamSt) (e : Ev) : StreamSt :=
  match e with
  | .stateChanged new =>
      let s1 := { s with pwState := new }
      match new with
      | .paused => { s1 with queue := [] }
      | _ => s1
  | .setDriving b => { s with driving := b }
  | .addBuffer h datas info? =>
      match onAddBuffer { handle := h, userData := none, datas := datas } info? with
      | .ok b => { s with avail := s.avail ++ [b] }
      | .panic => s
  | .removeBuffer h =>
      { s with
          avail := s.avail.filter fun b => b.handle ≠ h
          held := s.held.filter fun b => b.handle ≠ h }
  | .dequeue => (dequeueBuffer s).1
  | .queueProc h => (queueBufferProcess s h).1
  | .process => onProcess s
  | .terminateReq => (terminate s).1

/-- Run the state machine from a given state. -/
def runFrom (s : StreamSt) (evs : List Ev) : StreamSt :=
  evs.foldl step s

/-- Run the state machine from the initial stream state; reachable states
are exactly the values of `run`. -/
def run (evs : List Ev) : StreamSt :=
  runFrom streamInit evs

/-- The user-handle stamp an add-buffer event produces, if any: the backend
returned a `BufferInfo` and the plane counts agree (otherwise the buffer
stays unstamped or the process aborts). -/
def stampOf (datas : List SpaData) (info? : Option BufferInfo) : Option UserHandle :=
  match info? with
  | none => none
  | some info => if datas.length = info.planes.length then some info.userHandle else none

/-- One step of the live-stamp ledger: an add-buffer event that stamps a
user handle records the pair, a remove-buffer event clears every record of
that handle. -/
def liveStep (acc : List (Handle × UserHandle)) (e : Ev) : List (Handle × UserHandle) :=
  match e with
  | .addBuffer h datas info? =>
      match stampOf datas info? with
      | some u => acc ++ [(h, u)]
      | none => acc
  | .removeBuffer h => acc.filter fun p => p.1 ≠ h
  | _ => acc

/-- The pairs of buffer handle and user handle stamped by an add-buffer
event of the trace and not yet cleared by a later remove-buffer event. -/
def liveAdds (evs : List Ev) : List (Handle × UserHandle) :=
  evs.foldl liveStep []

/-- The handles a queue-for-processing event of the trace carries. -/
def queuedIn (evs : List Ev) : List Handle :=
  evs.filterMap fun e =>
    match e with
    | .queueProc h => some h
    | _ => none

/-! ### Negotiation parameter model

`build_format` and `build_stream_params` serialize structured spa pod
values with `spa_pod_serialize`; the embedding models them up to that
(injective) serialization, as the structured objects themselves. -/

/-- spa_sys constant: `SPA_TYPE_OBJECT_Format` (0x40003). -/
def SPA_TYPE_OBJECT_Format : Nat := 0x40003

/-- spa_sys constant: `SPA_TYPE_OBJECT_ParamBuffers` (0x40004). -/
def SPA_TYPE_OBJECT_ParamBuffers : Nat := 0x40004

/-- spa_sys constant: `SPA_TYPE_OBJECT_ParamMeta` (0x40005). -/
def SPA_TYPE_OBJECT_ParamMeta : Nat := 0x40005

/-- spa_sys constant: `SPA_PARAM_EnumFormat` (value 3). -/
def SPA_PARAM_EnumFormat : Nat := 3

/-- spa_sys constant: `SPA_PARAM_Format` (value 4). -/
def SPA_PARAM_Format : Nat := 4

/-- spa_sys constant: `SPA_PARAM_Buffers` (value 5). -/
def SPA_PARAM_Buffers : Nat := 5

/-- spa_sys constant: `SPA_PARAM_Meta` (value 6). -/
def SPA_PARAM_Meta : Nat := 6

/-- spa_sys constant: `SPA_FORMAT_mediaType` (value 1). -/
def SPA_FORMAT_mediaType : Nat := 1

/-- spa_sys constant: `SPA_FORMAT_mediaSubtype` (value 2). -/
def SPA_FORMAT_mediaSubtype : Nat := 2

/-- spa_sys constant: `SPA_FORMAT_VIDEO_format` (0x20001). -/
def SPA_FORMAT_VIDEO_format : Nat := 0x20001

/-- spa_sys constant: `SPA_FORMAT_VIDEO_modifier` (0x20002). -/
def SPA_FORMAT_VIDEO_modifier : Nat := 0x20002

/-- spa_sys constant: `SPA_FORMAT_VIDEO_size` (0x20003). -/
def SPA_FORMAT_VIDEO_size : Nat := 0x20003

/-- spa_sys constant: `SPA_FORMAT_VIDEO_framerate` (0x20004). -/
def SPA_FORMAT_VIDEO_framerate : Nat := 0x20004

/-- spa_sys constant: `SPA_MEDIA_TYPE_video` (value 2). -/
def SPA_MEDIA_TYPE_video : Nat := 2

/-- spa_sys constant: `SPA_MEDIA_SUBTYPE_raw` (value 1). -/
def SPA_MEDIA_SUBTYPE_raw : Nat := 1

/-- spa_sys constant: `SPA_PARAM_BUFFERS_buffers` (value 1). -/
def SPA_PARAM_BUFFERS_buffers : Nat := 1

/-- spa_sys constant: `SPA_PARAM_BUFFERS_blocks` (value 2). -/
def SPA_PARAM_BUFFERS_blocks : Nat := 2

/-- spa_sys constant: `SPA_PARAM_BUFFERS_dataType` (value 6). -/
def SPA_PARAM_BUFFERS_dataType : Nat := 6

/-- spa_sys constant: `SPA_PARAM_META_type` (value 1). -/
def SPA_PARAM_META_type : Nat := 1

/-- spa_sys constant: `SPA_PARAM_META_size` (value 2). -/
def SPA_PARAM_META_size : Nat := 2

/-- spa_sys constant: `SPA_META_Header` (value 1). -/
def SPA_META_Header : Nat := 1

/-- spa_sys constant: `SPA_META_Cursor` (value 5). -/
def SPA_META_Cursor : Nat := 5

/-- libspa pod property flag `MANDATORY` (bit 3). -/
def FLAG_MANDATORY : Nat := 8

/-- libspa pod property flag `DONT_FIXATE` (bit 4). -/
def FLAG_DONT_FIXATE : Nat := 16

/-- Size of `spa_sys::spa_meta_header` under `mem::size_of`: 32 bytes. -/
def SIZE_spa_meta_header : Nat := 32

/-- Size of `spa_sys::spa_meta_cursor` under `mem::size_of`: 28 bytes. -/
def SIZE_spa_meta_cursor : Nat := 28

/-- Size of `spa_sys::spa_meta_bitmap` under `mem::size_of`: 20 bytes. -/
def SIZE_spa_meta_bitmap : Nat := 20

/-- Models `const MAX_CURSOR_BITMAP_SIZE` = 64 * 64 * 4 (stream.rs line 25). -/
def MAX_CURSOR_BITMAP_SIZE : Nat := 64 * 64 * 4

/-- The `u64 as i64` wrapping cast applied to modifiers in `build_format`. -/
def toI64 (m : Nat) : Int :=
  if m % 2 ^ 64 < 2 ^ 63 then ((m % 2 ^ 64 : Nat) : Int)
  else ((m % 2 ^ 64 : Nat) : Int) - 2 ^ 64

/-- Models the subset of `libspa::pod::Value` the negotiator builds:
plain values and choice values with their default and alternatives. -/
inductive PodVal where
  | idVal (v : Nat)
  | intVal (v : Int)
  | longVal (v : Int)
  | rect (width height : Nat)
  | frac (num denom : Nat)
  | choiceIdEnum (dflt : Nat) (alternatives : List Nat)
  | choiceLongEnum (dflt : Int) (alternatives : List Int)
  | choiceIntRange (dflt mn mx : Int)
  | choiceIntFlags (dflt : Int) (flags : List Int)
deriving DecidableEq, Repr

/-- Models `libspa::pod::Property`: key, flag bits, value. -/
structure SpaProperty where
  key : Nat
  flags : Nat
  value : PodVal
deriving DecidableEq, Repr

/-- Models `libspa::pod::Object`. -/
structure SpaObject where
  type_ : Nat
  id : Nat
  properties : List SpaProperty
deriving DecidableEq, Repr

/-- Models `build_format` (stream.rs lines 247 to 325) up to pod
serialization.  The source asserts `formats` nonempty; every call site
passes a nonempty list, so the `headD 0` default is never taken.  With
more than one format the format property is an enum choice over all
offered formats; with a nonempty modifier list the modifier property is
either pinned (`fixate` true: a mandatory long) or an enum choice marked
mandatory and dont-fixate. -/
def buildFormat (width height : Nat) (formats : List Nat) (modifiers : List Nat)
    (fixate : Bool) : SpaObject :=
  let formatValue : PodVal :=
    if formats.length > 1 then .choiceIdEnum (formats.headD 0) formats
    else .idVal (formats.headD 0)
  let base : List SpaProperty :=
    [ { key := SPA_FORMAT_mediaType, flags := 0, value := .idVal SPA_MEDIA_TYPE_video },
      { key := SPA_FORMAT_mediaSubtype, flags := 0, value := .idVal SPA_MEDIA_SUBTYPE_raw },
      { key := SPA_FORMAT_VIDEO_format, flags := 0, value := formatValue },
      { key := SPA_FORMAT_VIDEO_size, flags := 0, value := .rect width height },
      { key := SPA_FORMAT_VIDEO_framerate, flags := 0, value := .frac 0 1 } ]
  let props : List SpaProperty :=
    if modifiers.length > 0 then
      base ++
        [ if fixate then
            { key := SPA_FORMAT_VIDEO_modifier, flags := FLAG_MANDATORY,
              value := .longVal (toI64 (modifiers.headD 0)) }
          else
            { key := SPA_FORMAT_VIDEO_modifier, flags := FLAG_MANDATORY + FLAG_DONT_FIXATE,
              value := .choiceLongEnum (toI64 (modifiers.headD 0)) (modifiers.map toI64) } ]
    else base
  { type_ := SPA_TYPE_OBJECT_Format, id := SPA_PARAM_EnumFormat, properties := props }

/-- Models `build_stream_params` (stream.rs lines 160 to 245) up to pod
serialization: the buffer-count range (default 8, min 1, max the
negotiated maximum), the block count (at least 1), the data-type flag for
dma-buf or memfd backing, and the two fixed-size metadata declarations
(header, and cursor sized for the maximum bitmap). -/
def buildStreamParams (maxBuffers blocks : Nat) (isDmaBuf : Bool) : List SpaObject :=
  let dataTypeFlag : Int := if isDmaBuf then 2 ^ SPA_DATA_DmaBuf else 2 ^ SPA_DATA_MemFd
  let buffers : SpaObject :=
    { type_ := SPA_TYPE_OBJECT_ParamBuffers, id := SPA_PARAM_Buffers,
      properties :=
        [ { key := SPA_PARAM_BUFFERS_buffers, flags := 0,
            value := .choiceIntRange 8 1 (maxBuffers : Int) },
          { key := SPA_PARAM_BUFFERS_blocks, flags := 0,
            value := .intVal ((max blocks 1 : Nat) : Int) },
          { key := SPA_PARAM_BUFFERS_dataType, flags := 0,
            value := .choiceIntFlags dataTypeFlag [] } ] }
  let metaHeader : SpaObject :=
    { type_ := SPA_TYPE_OBJECT_ParamMeta, id := SPA_PARAM_Meta,
      properties :=
        [ { key := SPA_PARAM_META_type, flags := 0, value := .idVal SPA_META_Header },
          { key := SPA_PARAM_META_size, flags := 0,
            value := .intVal (SIZE_spa_meta_header : Int) } ] }
  let cursorMetaSize : Nat := SIZE_spa_meta_cursor + SIZE_spa_meta_bitmap + MAX_CURSOR_BITMAP_SIZE
  let metaCursor : SpaObject :=
    { type_ := SPA_TYPE_OBJECT_ParamMeta, id := SPA_PARAM_Meta,
      properties :=
        [ { key := SPA_PARAM_META_type, flags := 0, value := .idVal SPA_META_Cursor },
          { key := SPA_PARAM_META_size, flags := 0,
            value := .intVal (cursorMetaSize : Int) } ] }
  [buffers, metaHeader, metaCursor]

/-- Models `EnumFormatInfo` from stream.rs (formats are the `u32`
representations of the `Format` enum, modifiers are `u64`). -/
structure EnumFormatInfo where
  formats : List Nat
  modifiers : List Nat
deriving DecidableEq, Repr

/-- Models `FixateFormat` from stream.rs. -/
structure FixateFormat where
  modifier : Option Nat
  numPlanes : Nat
deriving DecidableEq, Repr

/-- Models `VideoRawInfo` from spa_utils.rs, the canonical parse of a
format-changed proposal. -/
structure VideoRawInfo where
  format : Nat
  dontFixateModifier : Bool
  modifiers : List Nat
deriving DecidableEq, Repr

/-- The `param` argument of the param-changed listener as `on_param_changed`
inspects it: a null pointer, a pod the deserializer rejects, a pod that
does not parse as a video format, or a parsed proposal. -/
inductive ParamInput where
  | nullParam
  | badPod
  | badFormat
  | okPod (info : VideoRawInfo)
deriving DecidableEq, Repr

/-- The outcome of one param-changed round: no action (early return),
one `update_params` call carrying the listed pod objects, or a process
abort (the `unwrap` on a missing fixated modifier). -/
inductive ParamAction where
  | noAction
  | updateParams (params : List SpaObject)
  | panicAction
deriving DecidableEq, Repr

/-- Models `on_param_changed` (stream.rs lines 378 to 470).  A null param,
a non-Format id, a parse failure, or a backend that reports no compatible
format all end the round without action.  Otherwise the backend fixates;
with a nonempty modifier list the chosen modifier is unwrapped (panic when
absent).  A dont-fixate proposal republishes the pinned format followed by
the originally offered alternatives unfixed; any other proposal publishes
the buffer and metadata parameters. -/
def onParamChanged (enumFormats : List EnumFormatInfo) (maxBuffers width height : Nat)
    (fixateFormat : EnumFormatInfo → Option FixateFormat)
    (id : Nat) (input : ParamInput) : ParamAction :=
  if id ≠ SPA_PARAM_Format then .noAction
  else
    match input with
    | .nullParam => .noAction
    | .badPod => .noAction
    | .badFormat => .noAction
    | .okPod info =>
        match fixateFormat { formats := [info.format], modifiers := info.modifiers } with
        | none => .noAction
        | some fx =>
            if info.modifiers.length > 0 then
              match fx.modifier with
              | none => .panicAction
              | some m =>
                  if info.dontFixateModifier then
                    .updateParams
                      (buildFormat width height [info.format] [m] true ::
                        enumFormats.map fun ef =>
                          buildFormat width height ef.formats ef.modifiers false)
                  else
                    .updateParams (buildStreamParams maxBuffers fx.numPlanes fx.modifier.isSome)
            else
              .updateParams (buildStreamParams maxBuffers fx.numPlanes fx.modifier.isSome)

/-! ### Cross-thread command bridge

`StreamImpl::attach` (stream.rs lines 784 to 800) holds only a weak
reference to the stream state; the dispatch closure upgrades it, executes
the message against the live receiver, and otherwise drops the message,
which closes the one-shot result channel of the `trait_enumizer` bridge,
so the blocked sender receives a disconnect error immediately instead of
a result.  The client-scope dispatch (client.rs) behaves the same way
once the loop thread has exited and dropped the receiver. -/

/-- The stream-scope bridge messages of `StreamMethods`. -/
inductive StreamCall where
  | terminateCall
  | dequeueCall
  | queueProcCall (h : Handle)
deriving DecidableEq, Repr

/-- What the caller blocked on the one-shot result channel observes:
a typed return value, or `closed` when the message was dropped without
being executed (receiver torn down). -/
inductive StreamReply where
  | terminated (r : TermResult)
  | dequeued (r : Option (Handle × UserHandle))
  | queued (r : SendOutcome)
  | closed
deriving DecidableEq, Repr

/-- Models the attached stream-message dispatcher: `none` models a torn
down receiver (the weak upgrade fails, the message is dropped, the result
channel closes); `some s` executes the operation against the live state. -/
def dispatchStream (inner : Option StreamSt) (c : StreamCall) :
    Option StreamSt × StreamReply :=
  match inner with
  | none => (none, .closed)
  | some s =>
      match c with
      | .terminateCall =>
          let p := terminate s
          (some p.1, .terminated p.2)
      | .dequeueCall =>
          let p := dequeueBuffer s
          (some p.1, .dequeued p.2)
      | .queueProcCall h =>
          let p := queueBufferProcess s h
          (some p.1, .queued p.2)

/-- The session-scope state owned by the IPC loop thread (client.rs):
the monotonic stream-id counter, the map from stream id to stream state,
and whether the main loop is still running. -/
structure ClientSt where
  streamNextId : Nat
  streamMap : List (Nat × StreamSt)
  loopRunning : Bool
deriving DecidableEq, Repr

/-- Models `ClientMethods::create_stream` on the success path (client.rs
lines 63 to 94): take the next id, advance the counter, register a fresh
stream state, return the id. -/
def clientCreateStream (c : ClientSt) : ClientSt × Nat :=
  let id := c.streamNextId
  ({ c with streamNextId := id + 1, streamMap := c.streamMap ++ [(id, streamInit)] }, id)

/-- The session-scope bridge messages of `ClientMethods`. -/
inductive ClientCall where
  | terminateCall
  | createStreamCall
deriving DecidableEq, Repr

/-- The session-scope caller observation, `closed` again modelling a
dropped message whose result channel disconnects. -/
inductive ClientReply where
  | terminated
  | created (id : Nat)
  | closed
deriving DecidableEq, Repr

/-- Models the session-message dispatcher: after the loop thread has torn
the client state down, a message is dropped and the caller observes the
closed channel; on a live client, terminate clears the stream map and
quits the loop (client.rs lines 56 to 61), create-stream registers a
stream. -/
def dispatchClient (inner : Option ClientSt) (c : ClientCall) :
    Option ClientSt × ClientReply :=
  match inner with
  | none => (none, .closed)
  | some cl =>
      match c with
      | .terminateCall =>
          (some { cl with streamMap := [], loopRunning := false }, .terminated)
      | .createStreamCall =>
          let p := clientCreateStream cl
          (some p.1, .created p.2)

/-! ### Concrete sample inputs used to instantiate the theorems below. -/

/-- The list of handles a queue-for-processing event pushes into the
handoff FIFO (one handle for a queue event, nothing otherwise). -/
def pushedOf (e : Ev) : List Handle :=
  match e with
  | .queueProc h => [h]
  | _ => []

/-- Invariant tying the transport buffer pool to the live-stamp ledger:
every stamped buffer in the pool (dequeueable or held) is recorded by an
add-buffer event that has not been cleared by a remove-buffer event. -/
def stampedInv (s : StreamSt) (acc : List (Handle × UserHandle)) : Prop :=
  ∀ b, (b ∈ s.avail ∨ b ∈ s.held) → ∀ u, b.userData = some u → (b.handle, u) ∈ acc

/-- A sample spa data plane as handed over by the transport. -/
def someData : SpaData :=
  { fd := 0, dataNull := true, mapoffset := 0, maxsize := 0, type_ := 0,
    chunk := { offset := 0, size := 0, stride := 0 } }

/-- A sample backend plane description. -/
def onePlane : BufferPlaneInfo :=
  { fd := 5, offset := 0, size := 4096, stride := 64 }

/-- A sample backend buffer description with one plane and user handle 7. -/
def oneBufInfo : BufferInfo :=
  { isDmaBuf := true, planes := [onePlane], userHandle := 7 }

/-- Event trace: connect, drive, add one stamped buffer. -/
def c1EvsA : List Ev :=
  [.stateChanged .streaming, .setDriving true, .addBuffer 1 [someData] (some oneBufInfo)]

/-- Event trace: connect, drive, add one buffer whose backend add failed,
leaving its user-data pointer null. -/
def c1EvsB : List Ev :=
  [.stateChanged .streaming, .setDriving true, .addBuffer 2 [someData] none]

/-- The invalid-marked, unstamped buffer the trace `c1EvsB` produces. -/
def c1BInv : RawBuffer :=
  { handle := 2, userData := none, datas := [markInvalid someData] }

/-- Event trace that fills the handoff FIFO to its capacity of 4. -/
def c2Evs : List Ev :=
  [.setDriving true, .queueProc 1, .queueProc 2, .queueProc 3, .queueProc 4]

/-- A transport buffer with two spa data planes. -/
def c3TwoPlaneBuf : RawBuffer :=
  { handle := 1, userData := none, datas := [someData, someData] }

/-- A transport buffer with one spa data plane. -/
def c3OnePlaneBuf : RawBuffer :=
  { handle := 1, userData := none, datas := [someData] }

/-- The stamped buffer a matching one-plane backend add produces. -/
def c3OkResult : RawBuffer :=
  { handle := 1, userData := some oneBufInfo.userHandle,
    datas := [fillData SPA_DATA_DmaBuf someData onePlane] }

/-- Event trace reaching a paused state that still reports driving. -/
def c4Evs : List Ev :=
  [.setDriving true, .stateChanged .paused]

/-- A driving, streaming state with an empty handoff FIFO. -/
def c4SDrive : StreamSt :=
  { streamInit with pwState := .streaming, driving := true }

/-- A stamped transport buffer with handle 7 and user handle 3. -/
def c5B : RawBuffer :=
  { handle := 7, userData := some 3, datas := [someData] }

/-- A post-pause state: empty FIFO, one buffer held by the caller. -/
def c5S : StreamSt :=
  { streamInit with pwState := .streaming, held := [c5B] }

/-- Events after the pause: drive, queue handle 7, process it. -/
def c5Evs : List Ev :=
  [.setDriving true, .queueProc 7, .process]

/-- A backend offer: format 12 with modifiers 7 and 3. -/
def c6Efs : List EnumFormatInfo :=
  [{ formats := [12], modifiers := [7, 3] }]

/-- A backend fixate callback choosing modifier 7 with one plane. -/
def c6Fix : EnumFormatInfo → Option FixateFormat :=
  fun _ => some { modifier := some 7, numPlanes := 1 }

/-- A transport proposal of format 12 with an unfixed modifier choice. -/
def c6Info : VideoRawInfo :=
  { format := 12, dontFixateModifier := true, modifiers := [7, 3] }

/-- A stream state whose terminate callback has already been taken. -/
def c7Fired : StreamSt :=
  { streamInit with onTerminate := false }

/-- A streaming, driving state whose next dequeueable buffer is unstamped. -/
def c10S : StreamSt :=
  { streamInit with pwState := .streaming, driving := true, avail := [c1BInv] }

/-! ### Helper lemmas -/

/-- Dequeue only touches the buffer pool: FIFO and ghost fields are kept. -/
theorem dequeueBuffer_frame (s : StreamSt) :
    (dequeueBuffer s).1.queue = s.queue ∧ (dequeueBuffer s).1.processed = s.processed := by
  unfold dequeueBuffer
  repeat' split
  all_goals exact ⟨rfl, rfl⟩

/-- Every buffer in the pool after a dequeue was in the pool before. -/
theorem dequeueBuffer_pool_mem (s : StreamSt) (b : RawBuffer)
    (hb : b ∈ (dequeueBuffer s).1.avail ∨ b ∈ (dequeueBuffer s).1.held) :
    b ∈ s.avail ∨ b ∈ s.held := by
  unfold dequeueBuffer at hb
  rcases s with ⟨ps, dr, av, he, qu, ot, tf, pr⟩
  cases ps <;> simp_all
  cases dr <;> simp_all
  cases av with
  | nil => simp_all
  | cons b0 rest =>
      cases hud : b0.userData <;> simp_all <;> tauto

/-- A successful dequeue pops a stamped buffer from the head of the pool. -/
theorem dequeueBuffer_some (s : StreamSt) (h : Handle) (u : UserHandle)
    (hres : (dequeueBuffer s).2 = some (h, u)) :
    ∃ b rest, s.avail = b :: rest ∧ b.handle = h ∧ b.userData = some u := by
  unfold dequeueBuffer at hres
  rcases s with ⟨ps, dr, av, he, qu, ot, tf, pr⟩
  cases ps <;> simp_all
  cases dr <;> simp_all
  cases av with
  | nil => simp_all
  | cons b0 rest =>
      cases hud : b0.userData <;> simp_all

/-- A dequeue that finds an unstamped buffer at the head returns none. -/
theorem dequeueBuffer_null_none (s : StreamSt) (b : RawBuffer) (rest : List RawBuffer)
    (hav : s.avail = b :: rest) (hu : b.userData = none) :
    (dequeueBuffer s).2 = none := by
  unfold dequeueBuffer
  rcases s with ⟨ps, dr, av, he, qu, ot, tf, pr⟩
  cases ps <;> simp_all
  cases dr <;> simp_all

/-- The process callback pops the head of the handoff FIFO. -/
theorem onProcess_queue (s : StreamSt) : (onProcess s).queue = s.queue.tail := by
  unfold onProcess
  split
  · simp_all
  · rename_i h0 rest heq
    rcases hf : List.find? (fun b => decide (b.handle = h0)) s.held with _ | b0
    · simp [heq, hf]
    · cases hud : b0.userData <;> simp [heq, hf, hud]

/-- Every buffer in the pool after a process callback was there before. -/
theorem onProcess_pool_mem (s : StreamSt) (b : RawBuffer)
    (hb : b ∈ (onProcess s).avail ∨ b ∈ (onProcess s).held) :
    b ∈ s.avail ∨ b ∈ s.held := by
  unfold onProcess at hb
  rcases hq : s.queue with _ | ⟨h0, rest⟩
  · simp_all
  · simp only [hq] at hb
    rcases hf : (s.held.find? fun b2 => b2.handle = h0) with _ | b0
    · simp_all
    · have hmem : b0 ∈ s.held := List.mem_of_find?_eq_some hf
      simp only [hf] at hb
      cases hud : b0.userData with
      | none => simp_all
      | some u =>
          simp only [hud] at hb
          rcases hb with hb | hb
          · rcases List.mem_append.mp hb with hb | hb
            · exact Or.inl hb
            · simp at hb
              exact Or.inr (hb ▸ hmem)
          · exact Or.inr (List.mem_of_mem_filter hb)

/-- The process callback only adds handles drawn from the FIFO head to the
processed ledger. -/
theorem onProcess_processed (s : StreamSt) (h : Handle)
    (hh : h ∈ (onProcess s).processed) : h ∈ s.processed ∨ h ∈ s.queue := by
  unfold onProcess at hh
  rcases hq : s.queue with _ | ⟨h0, rest⟩
  · simp_all
  · simp only [hq] at hh
    rcases hf : (s.held.find? fun b2 => b2.handle = h0) with _ | b0
    · simp_all
    · simp only [hf] at hh
      cases hud : b0.userData with
      | none => simp_all
      | some u =>
          simp only [hud] at hh
          rcases List.mem_append.mp hh with hh | hh
          · exact Or.inl hh
          · simp at hh
            exact Or.inr (by simp [hq, hh])

/-- Iterated terminate requests are inert once the callback is gone. -/
theorem terminateN_frozen (n : Nat) (u : StreamSt) (hu : u.onTerminate = false) :
    terminateN n u = u := by
  induction n with
  | zero => rfl
  | succ k ih => simpa [terminateN, terminate, hu] using ih

/-- Queue-for-processing only touches the handoff FIFO. -/
theorem queueBufferProcess_frame (s : StreamSt) (h : Handle) :
    (queueBufferProcess s h).1.avail = s.avail ∧ (queueBufferProcess s h).1.held = s.held ∧
      (queueBufferProcess s h).1.processed = s.processed := by
  unfold queueBufferProcess
  repeat' split
  all_goals exact ⟨rfl, rfl, rfl⟩

/-- Terminate only touches the callback slot and its ghost counter. -/
theorem terminate_frame (s : StreamSt) :
    (terminate s).1.avail = s.avail ∧ (terminate s).1.held = s.held ∧
      (terminate s).1.queue = s.queue ∧ (terminate s).1.processed = s.processed := by
  unfold terminate
  split
  all_goals exact ⟨rfl, rfl, rfl, rfl⟩

/-- Handles in the FIFO after a queue-for-processing call were already
queued or are the handle just passed. -/
theorem queueBufferProcess_queue_mem (s : StreamSt) (h h2 : Handle)
    (hh : h2 ∈ (queueBufferProcess s h).1.queue) : h2 ∈ s.queue ∨ h2 = h := by
  unfold queueBufferProcess at hh
  repeat' split at hh
  all_goals simp_all

/-- Queue-for-processing keeps the FIFO within its capacity. -/
theorem queueBufferProcess_len (s : StreamSt) (h : Handle)
    (hq : s.queue.length ≤ MAX_PROCESS_BUFFERS) :
    (queueBufferProcess s h).1.queue.length ≤ MAX_PROCESS_BUFFERS := by
  unfold queueBufferProcess
  repeat' split
  all_goals simp_all [MAX_PROCESS_BUFFERS]
  omega

/-- A backend add-buffer outcome carries the fresh handle and exactly the
stamp `stampOf` predicts. -/
theorem onAddBuffer_ok_fields (h : Handle) (datas : List SpaData) (info? : Option BufferInfo)
    (b : RawBuffer)
    (hok : onAddBuffer { handle := h, userData := none, datas := datas } info? = .ok b) :
    b.handle = h ∧ b.userData = stampOf datas info? := by
  cases info? with
  | none =>
      simp only [onAddBuffer, AddBufferResult.ok.injEq] at hok
      subst hok
      simp [stampOf]
  | some info =>
      simp only [onAddBuffer] at hok
      split at hok
      · rename_i hl
        simp only [AddBufferResult.ok.injEq] at hok
        subst hok
        simp_all [stampOf]
      · exact absurd hok (by simp)

/-- A panicking add-buffer leaves no stamp. -/
theorem onAddBuffer_panic_stamp (h : Handle) (datas : List SpaData) (info? : Option BufferInfo)
    (hpa : onAddBuffer { handle := h, userData := none, datas := datas } info? = .panic) :
    stampOf datas info? = none := by
  cases info? with
  | none => simp [onAddBuffer] at hpa
  | some info =>
      simp only [onAddBuffer] at hpa
      split at hpa
      · exact absurd hpa (by simp)
      · simp_all [stampOf]

/-- One step preserves the stamp invariant against the live ledger. -/
theorem stampedInv_step (s : StreamSt) (acc : List (Handle × UserHandle)) (e : Ev)
    (hs : stampedInv s acc) : stampedInv (step s e) (liveStep acc e) := by
  cases e with
  | stateChanged new =>
      intro b hb u hu
      cases new <;> exact hs b hb u hu
  | setDriving b0 =>
      intro b hb u hu
      exact hs b hb u hu
  | addBuffer h0 datas info? =>
      intro b hb u hu
      simp only [step] at hb
      simp only [liveStep]
      rcases hok : onAddBuffer { handle := h0, userData := none, datas := datas } info? with
          nb | _
      · rw [hok] at hb
        obtain ⟨hnh, hnu⟩ := onAddBuffer_ok_fields h0 datas info? nb hok
        simp only [List.mem_append] at hb
        rcases hb with (hb | hb) | hb
        · rcases hstamp : stampOf datas info? with _ | u0 <;> simp only [hstamp]
          · exact hs b (Or.inl hb) u hu
          · exact List.mem_append_left _ (hs b (Or.inl hb) u hu)
        · simp only [List.mem_singleton] at hb
          subst hb
          rw [hnu] at hu
          rw [hu]
          simp [hnh]
        · rcases hstamp : stampOf datas info? with _ | u0 <;> simp only [hstamp]
          · exact hs b (Or.inr hb) u hu
          · exact List.mem_append_left _ (hs b (Or.inr hb) u hu)
      · rw [hok] at hb
        rw [onAddBuffer_panic_stamp h0 datas info? hok]
        exact hs b hb u hu
  | removeBuffer h0 =>
      intro b hb u hu
      simp only [step] at hb
      have hbh : b.handle ≠ h0 := by
        rcases hb with hb | hb <;>
          simpa using (List.mem_filter.mp hb).2
      have hbold : b ∈ s.avail ∨ b ∈ s.held := by
        rcases hb with hb | hb
        · exact Or.inl (List.mem_of_mem_filter hb)
        · exact Or.inr (List.mem_of_mem_filter hb)
      simp only [liveStep]
      exact List.mem_filter.mpr ⟨hs b hbold u hu, by simpa using hbh⟩
  | dequeue =>
      intro b hb u hu
      exact hs b (dequeueBuffer_pool_mem s b hb) u hu
  | queueProc h0 =>
      intro b hb u hu
      simp only [step] at hb
      rw [(queueBufferProcess_frame s h0).1, (queueBufferProcess_frame s h0).2.1] at hb
      exact hs b hb u hu
  | process =>
      intro b hb u hu
      exact hs b (onProcess_pool_mem s b hb) u hu
  | terminateReq =>
      intro b hb u hu
      simp only [step] at hb
      rw [(terminate_frame s).1, (terminate_frame s).2.1] at hb
      exact hs b hb u hu

/-- Running any event list preserves the stamp invariant. -/
theorem stampedInv_runFrom (evs : List Ev) (s : StreamSt) (acc : List (Handle × UserHandle))
    (hs : stampedInv s acc) : stampedInv (runFrom s evs) (evs.foldl liveStep acc) := by
  induction evs generalizing s acc with
  | nil => exact hs
  | cons e evs ih => exact ih (step s e) (liveStep acc e) (stampedInv_step s acc e hs)

/-- Every reachable state satisfies the stamp invariant with respect to the
live adds of its trace. -/
theorem stampedInv_run (evs : List Ev) : stampedInv (run evs) (liveAdds evs) := by
  have h0 : stampedInv streamInit [] := by
    intro b hb
    rcases hb with hb | hb <;> simp [streamInit] at hb
  exact stampedInv_runFrom evs streamInit [] h0

/-- One step keeps the handoff FIFO within its capacity. -/
theorem step_queue_len (s : StreamSt) (e : Ev) (hq : s.queue.length ≤ MAX_PROCESS_BUFFERS) :
    (step s e).queue.length ≤ MAX_PROCESS_BUFFERS := by
  cases e with
  | stateChanged new => cases new <;> simp [step] <;> exact hq
  | setDriving b0 => exact hq
  | addBuffer h0 datas info? =>
      simp only [step]
      split <;> exact hq
  | removeBuffer h0 => exact hq
  | dequeue =>
      simp only [step]
      rw [(dequeueBuffer_frame s).1]
      exact hq
  | queueProc h0 => exact queueBufferProcess_len s h0 hq
  | process =>
      simp only [step]
      rw [onProcess_queue s]
      have : s.queue.tail.length = s.queue.length - 1 := by simp
      omega
  | terminateReq =>
      simp only [step]
      rw [(terminate_frame s).2.2.1]
      exact hq

/-- Every reachable state keeps the handoff FIFO within its capacity. -/
theorem runFrom_queue_len (evs : List Ev) (s : StreamSt)
    (hq : s.queue.length ≤ MAX_PROCESS_BUFFERS) :
    (runFrom s evs).queue.length ≤ MAX_PROCESS_BUFFERS := by
  induction evs generalizing s with
  | nil => exact hq
  | cons e evs ih => exact ih (step s e) (step_queue_len s e hq)

/-- Splitting the queued handles of a trace at its first event. -/
theorem queuedIn_cons (e : Ev) (evs : List Ev) :
    queuedIn (e :: evs) = pushedOf e ++ queuedIn evs := by
  cases e <;> simp [queuedIn, pushedOf, List.filterMap_cons]

/-- Handles in the processed ledger or the FIFO after one step were in the
ledger, in the FIFO, or pushed by the step itself. -/
theorem step_source (s : StreamSt) (e : Ev) (h : Handle)
    (hh : h ∈ (step s e).processed ∨ h ∈ (step s e).queue) :
    h ∈ s.processed ∨ h ∈ s.queue ∨ h ∈ pushedOf e := by
  cases e with
  | stateChanged new =>
      cases new <;> simp only [step, pushedOf] at hh ⊢ <;> tauto
  | setDriving b0 => simpa [pushedOf] using hh
  | addBuffer h0 datas info? =>
      simp only [step] at hh
      rcases hok : onAddBuffer { handle := h0, userData := none, datas := datas } info? with
          nb | _ <;> rw [hok] at hh <;> simpa [pushedOf] using hh
  | removeBuffer h0 => simpa [pushedOf] using hh
  | dequeue =>
      simp only [step] at hh
      rw [(dequeueBuffer_frame s).1, (dequeueBuffer_frame s).2] at hh
      simpa [pushedOf] using hh
  | queueProc h0 =>
      simp only [step] at hh
      rcases hh with hh | hh
      · rw [(queueBufferProcess_frame s h0).2.2] at hh
        exact Or.inl hh
      · rcases queueBufferProcess_queue_mem s h0 h hh with hh | hh
        · exact Or.inr (Or.inl hh)
        · simp [pushedOf, hh]
  | process =>
      simp only [step] at hh
      rcases hh with hh | hh
      · rcases onProcess_processed s h hh with hh | hh
        · exact Or.inl hh
        · exact Or.inr (Or.inl hh)
      · rw [onProcess_queue s] at hh
        exact Or.inr (Or.inl ((List.tail_sublist s.queue).subset hh))
  | terminateReq =>
      simp only [step] at hh
      rw [(terminate_frame s).2.2.1, (terminate_frame s).2.2.2] at hh
      simpa [pushedOf] using hh

/-- Handles processed or queued after running a trace were already
processed, already queued, or pushed by a queue event of the trace. -/
theorem runFrom_source (evs : List Ev) (s : StreamSt) (h : Handle)
    (hh : h ∈ (runFrom s evs).processed ∨ h ∈ (runFrom s evs).queue) :
    h ∈ s.processed ∨ h ∈ s.queue ∨ h ∈ queuedIn evs := by
  induction evs generalizing s with
  | nil =>
      simp only [queuedIn, List.filterMap_nil]
      simpa using hh
  | cons e evs ih =>
      rcases ih (step s e) hh with h1 | h1 | h1
      · rcases step_source s e h (Or.inl h1) with h2 | h2 | h2
        · exact Or.inl h2
        · exact Or.inr (Or.inl h2)
        · exact Or.inr (Or.inr (by rw [queuedIn_cons]; exact List.mem_append_left _ h2))
      · rcases step_source s e h (Or.inr h1) with h2 | h2 | h2
        · exact Or.inl h2
        · exact Or.inr (Or.inl h2)
        · exact Or.inr (Or.inr (by rw [queuedIn_cons]; exact List.mem_append_left _ h2))
      · exact Or.inr (Or.inr (by rw [queuedIn_cons]; exact List.mem_append_right _ h1))

/-! ### Claim theorems -/

/-- C1: in every reachable state, a raw buffer obtained by dequeue_buffer
whose user-data pointer is null makes the call return none, and every
returned pair carries the user handle stamped by a prior add-buffer event
that has not yet been cleared by a remove-buffer event. -/
theorem c1_dequeue_stamped (evs : List Ev) (b : RawBuffer) (rest : List RawBuffer)
    (h : Handle) (u : UserHandle) :
    ((run evs).avail = b :: rest → b.userData = none →
        (dequeueBuffer (run evs)).2 = none) ∧
    ((dequeueBuffer (run evs)).2 = some (h, u) → (h, u) ∈ liveAdds evs) := by
  constructor
  · intro hav hu
    exact dequeueBuffer_null_none (run evs) b rest hav hu
  · intro hres
    obtain ⟨b0, rest0, hav, hh, hu⟩ := dequeueBuffer_some (run evs) h u hres
    have hmem : b0 ∈ (run evs).avail := by
      rw [hav]
      exact List.mem_cons_self _ _
    have hacc := stampedInv_run evs b0 (Or.inl hmem) u hu
    rwa [hh] at hacc

/-- C1 witness: a trace that stamps handle 1 with user handle 7 yields that
pair on dequeue, and a trace whose only buffer failed its backend add makes
dequeue return none. -/
theorem c1_dequeue_stamped_witness :
    ((1 : Handle), (7 : UserHandle)) ∈ liveAdds c1EvsA ∧
      (dequeueBuffer (run c1EvsB)).2 = none :=
  ⟨(c1_dequeue_stamped c1EvsA c1BInv [] 1 7).2 (by decide),
   (c1_dequeue_stamped c1EvsB c1BInv [] 1 7).1 (by decide) (by decide)⟩

/-- C2 (amended): in every reachable state the handoff FIFO holds at most
4 entries, and a queue_buffer_process call made while it holds 4 entries
blocks on the bounded channel send (leaving the state unchanged until
capacity frees); it does not drop, overwrite, succeed, or return an
error. -/
theorem c2_fifo_capacity (evs : List Ev) (h : Handle) :
    (run evs).queue.length ≤ MAX_PROCESS_BUFFERS ∧
    ((run evs).driving = true → (run evs).queue.length = MAX_PROCESS_BUFFERS →
        queueBufferProcess (run evs) h = (run evs, .blocked)) := by
  constructor
  · exact runFrom_queue_len evs streamInit (by simp [streamInit])
  · intro hdr hlen
    unfold queueBufferProcess
    rw [hdr, hlen]
    simp [MAX_PROCESS_BUFFERS]

/-- C2 witness: a trace that fills the FIFO to 4 entries respects the
capacity bound, and a further call on it blocks. -/
theorem c2_fifo_capacity_witness :
    (run c2Evs).queue.length ≤ MAX_PROCESS_BUFFERS ∧
      queueBufferProcess (run c2Evs) 9 = (run c2Evs, .blocked) :=
  ⟨(c2_fifo_capacity c2Evs 9).1, (c2_fifo_capacity c2Evs 9).2 (by decide) (by decide)⟩

/-- C2 counterexample: with the FIFO at its capacity of 4, a further
queue_buffer_process call blocks on the bounded crossbeam send; it does
not return an error, so it does not fail distinctly as the claim
states. -/
theorem c2_full_queue_blocks :
    (run c2Evs).queue.length = MAX_PROCESS_BUFFERS ∧
      queueBufferProcess (run c2Evs) 9 = (run c2Evs, .blocked) ∧
      (queueBufferProcess (run c2Evs) 9).2 ≠ .err := by decide

/-- C3 counterexample: a buffer with two transport planes and a backend
report of one plane makes on_add_buffer hit its assert_eq and abort, where
the claim demands a non-fatal invalidation. -/
theorem c3_plane_mismatch_aborts :
    onAddBuffer c3TwoPlaneBuf (some oneBufInfo) = .panic ∧
      c3TwoPlaneBuf.datas.length ≠ oneBufInfo.planes.length := by decide

/-- C3 (amended): when the backend add_buffer callback returns no
BufferInfo the defect is non-fatal (the buffer is left unstamped with
every plane invalidated: fd set to -1, data pointer null, type Invalid,
and capture continues); a plane-count mismatch, by contrast, trips the
assert_eq and aborts; matching plane counts stamp the user handle. -/
theorem c3_add_buffer_defect_policy (b : RawBuffer) (info : BufferInfo) :
    (onAddBuffer b none ≠ .panic ∧
      ∀ b2, onAddBuffer b none = .ok b2 → b2.userData = none ∧
        ∀ d ∈ b2.datas, d.fd = -1 ∧ d.dataNull = true ∧ d.type_ = SPA_DATA_Invalid) ∧
    (b.datas.length ≠ info.planes.length → onAddBuffer b (some info) = .panic) ∧
    (b.datas.length = info.planes.length →
        ∀ b2, onAddBuffer b (some info) = .ok b2 → b2.userData = some info.userHandle) := by
  refine ⟨⟨by simp [onAddBuffer], ?_⟩, ?_, ?_⟩
  · intro b2 hb2
    simp only [onAddBuffer, AddBufferResult.ok.injEq] at hb2
    subst hb2
    refine ⟨rfl, ?_⟩
    intro d hd
    obtain ⟨d0, _, rfl⟩ := List.mem_map.mp hd
    simp [markInvalid, SPA_DATA_Invalid]
  · intro hne
    simp [onAddBuffer, hne]
  · intro heq b2 hb2
    simp only [onAddBuffer, heq, if_pos, AddBufferResult.ok.injEq] at hb2
    subst hb2
    rfl

/-- C3 witness: the mismatch input aborts, and a matching one-plane input
stamps user handle 7. -/
theorem c3_add_buffer_defect_policy_witness :
    onAddBuffer c3TwoPlaneBuf (some oneBufInfo) = .panic ∧
      c3OkResult.userData = some oneBufInfo.userHandle :=
  ⟨(c3_add_buffer_defect_policy c3TwoPlaneBuf oneBufInfo).2.1 (by decide),
   (c3_add_buffer_defect_policy c3OnePlaneBuf oneBufInfo).2.2 (by decide) c3OkResult
     (by decide)⟩

/-- C4 counterexample: a reachable paused state that still reports the
driving role accepts queue_buffer_process (the handle is enqueued and the
call returns ok), so queue-for-processing is not gated on the streaming
state as the claim states. -/
theorem c4_queue_accepted_while_paused :
    (run c4Evs).pwState = .paused ∧ (run c4Evs).driving = true ∧
      queueBufferProcess (run c4Evs) 5 = ({ run c4Evs with queue := [5] }, .ok) := by
  decide

/-- C4 (amended): dequeue_buffer returns some only when the transport
reports the streaming state and the driving role (otherwise none), whereas
queue_buffer_process checks only the driving role: not driving is a no-op
success, and driving with spare capacity enqueues regardless of the
lifecycle state. -/
theorem c4_gating (s : StreamSt) (h : Handle) :
    ((s.pwState ≠ .streaming ∨ s.driving = false) → (dequeueBuffer s).2 = none) ∧
    (s.driving = false → queueBufferProcess s h = (s, .ok)) ∧
    (s.driving = true → s.queue.length < MAX_PROCESS_BUFFERS →
        queueBufferProcess s h = ({ s with queue := s.queue ++ [h] }, .ok)) := by
  refine ⟨?_, ?_, ?_⟩
  · intro hcond
    unfold dequeueBuffer
    split
    · rename_i heq
      rcases hcond with hps | hdr
      · exact absurd heq hps
      · rw [hdr]
        simp
    · rfl
  · intro hdr
    simp [queueBufferProcess, hdr]
  · intro hdr hlen
    simp [queueBufferProcess, hdr, hlen]

/-- C4 witness: the paused driving state rejects dequeue, the initial
state treats queueing as a no-op success, and a driving streaming state
enqueues. -/
theorem c4_gating_witness :
    (dequeueBuffer (run c4Evs)).2 = none ∧
      queueBufferProcess streamInit 5 = (streamInit, .ok) ∧
      queueBufferProcess c4SDrive 5 = ({ c4SDrive with queue := c4SDrive.queue ++ [5] }, .ok) :=
  ⟨(c4_gating (run c4Evs) 5).1 (Or.inl (by decide)),
   (c4_gating streamInit 5).2.1 (by decide),
   (c4_gating c4SDrive 5).2.2 (by decide) (by decide)⟩

/-- C5: the pause transition drains the handoff FIFO without processing
anything (the FIFO is empty immediately after and the processed ledger is
unchanged), and from a drained state every handle processed later was
pushed by a queue event after the pause, so no drained handle is ever
processed. -/
theorem c5_pause_drains (s : StreamSt) (evs : List Ev) (h : Handle) :
    (step s (.stateChanged .paused)).queue = [] ∧
    (step s (.stateChanged .paused)).processed = s.processed ∧
    (s.queue = [] → h ∈ (runFrom s evs).processed →
        h ∈ s.processed ∨ h ∈ queuedIn evs) := by
  refine ⟨rfl, rfl, ?_⟩
  intro hq hh
  rcases runFrom_source evs s h (Or.inl hh) with h1 | h1 | h1
  · exact Or.inl h1
  · rw [hq] at h1
    simp at h1
  · exact Or.inr h1

/-- C5 witness: pausing the sample state empties the FIFO and keeps the
ledger, and the handle processed after the pause was re-queued by a later
queue event. -/
theorem c5_pause_drains_witness :
    (step c5S (.stateChanged .paused)).queue = [] ∧
      (step c5S (.stateChanged .paused)).processed = c5S.processed ∧
      (7 ∈ c5S.processed ∨ 7 ∈ queuedIn c5Evs) :=
  ⟨(c5_pause_drains c5S c5Evs 7).1, (c5_pause_drains c5S c5Evs 7).2.1,
   (c5_pause_drains c5S c5Evs 7).2.2 (by decide) (by decide)⟩

/-- C6: a format proposal with a nonempty modifier list and the
dont-fixate flag, for which the backend fixate callback returns a chosen
modifier, makes the negotiator republish a parameter list whose first
alternative is the proposed format pinned to the chosen modifier (a
mandatory long without the dont-fixate flag) followed by the originally
offered per-format alternatives unfixed, and every published object is an
EnumFormat record, so no buffer parameters are published this round. -/
theorem c6_dont_fixate_republish
    (w h maxBufs : Nat) (efs : List EnumFormatInfo)
    (fixateFormat : EnumFormatInfo → Option FixateFormat)
    (info : VideoRawInfo) (fx : FixateFormat) (m : Nat)
    (hfix : fixateFormat { formats := [info.format], modifiers := info.modifiers } = some fx)
    (hm : fx.modifier = some m)
    (hne : info.modifiers ≠ [])
    (hdf : info.dontFixateModifier = true) :
    onParamChanged efs maxBufs w h fixateFormat SPA_PARAM_Format (.okPod info) =
      .updateParams (buildFormat w h [info.format] [m] true ::
        efs.map fun ef => buildFormat w h ef.formats ef.modifiers false) ∧
    (buildFormat w h [info.format] [m] true).properties.find?
        (fun p => p.key = SPA_FORMAT_VIDEO_modifier) =
      some { key := SPA_FORMAT_VIDEO_modifier, flags := FLAG_MANDATORY,
             value := .longVal (toI64 m) } ∧
    ∀ p ∈ (buildFormat w h [info.format] [m] true ::
        efs.map fun ef => buildFormat w h ef.formats ef.modifiers false),
      p.id = SPA_PARAM_EnumFormat ∧ p.type_ = SPA_TYPE_OBJECT_Format := by
  have hlen : 0 < info.modifiers.length := List.length_pos.mpr hne
  refine ⟨?_, ?_, ?_⟩
  · simp only [onParamChanged, hfix, hdf, hm]
    simp [hlen]
  · rfl
  · intro p hp
    rcases List.mem_cons.mp hp with hp | hp
    · subst hp
      exact ⟨rfl, rfl⟩
    · obtain ⟨ef, _, rfl⟩ := List.mem_map.mp hp
      exact ⟨rfl, rfl⟩

/-- C6 witness: offering format 12 with modifiers 7 and 3 and fixating to
modifier 7 republishes the pinned format first with the original offer as
fallback. -/
theorem c6_dont_fixate_republish_witness :
    onParamChanged c6Efs 16 1920 1080 c6Fix SPA_PARAM_Format (.okPod c6Info) =
      .updateParams (buildFormat 1920 1080 [c6Info.format] [7] true ::
        c6Efs.map fun ef => buildFormat 1920 1080 ef.formats ef.modifiers false) :=
  (c6_dont_fixate_republish 1920 1080 16 c6Efs c6Fix c6Info
      { modifier := some 7, numPlanes := 1 } 7 rfl rfl (by decide) rfl).1

/-- C7: over a stream lifetime the on_terminate callback fires exactly
once no matter how many terminate requests arrive, and a request arriving
after the callback was consumed is a no-op that still returns ok. -/
theorem c7_terminate_once (s t : StreamSt) (n : Nat)
    (hs1 : s.onTerminate = true) (hs2 : s.termFires = 0)
    (ht : t.onTerminate = false) :
    (terminateN (n + 1) s).termFires = 1 ∧
      (terminateN (n + 1) s).onTerminate = false ∧
      terminate t = (t, .ok) := by
  have hstep : (terminate s).1 = { s with onTerminate := false, termFires := s.termFires + 1 } := by
    simp [terminate, hs1]
  refine ⟨?_, ?_, ?_⟩
  · show (terminateN n (terminate s).1).termFires = 1
    rw [hstep, terminateN_frozen n _ rfl]
    simp [hs2]
  · show (terminateN n (terminate s).1).onTerminate = false
    rw [hstep, terminateN_frozen n _ rfl]
  · simp [terminate, ht]

/-- C7 witness: three terminate requests on a fresh stream fire the
callback once, and a request on a consumed slot is a no-op returning ok. -/
theorem c7_terminate_once_witness :
    (terminateN (2 + 1) streamInit).termFires = 1 ∧
      (terminateN (2 + 1) streamInit).onTerminate = false ∧
      terminate c7Fired = (c7Fired, .ok) :=
  c7_terminate_once streamInit c7Fired 2 (by decide) (by decide) (by decide)

/-- C8: every cross-thread bridge call dispatched after the receiver
object is torn down is dropped without being performed and the caller
observes the closed result channel, for stream-scope terminate, dequeue
and queue-for-processing as well as session-scope terminate and
create-stream. -/
theorem c8_teardown_closed (sc : StreamCall) (cc : ClientCall) :
    dispatchStream none sc = (none, .closed) ∧
      dispatchClient none cc = (none, .closed) :=
  ⟨rfl, rfl⟩

/-- C9: a queue_buffer_process call made while the stream is not driving
returns ok and leaves the whole state, in particular the handoff FIFO,
unchanged; at the interface it is indistinguishable from success. -/
theorem c9_not_driving_noop (s : StreamSt) (h : Handle) (hdr : s.driving = false) :
    queueBufferProcess s h = (s, .ok) := by
  simp [queueBufferProcess, hdr]

/-- C9 witness: the initial state is not driving and queueing is a no-op
success. -/
theorem c9_not_driving_noop_witness :
    queueBufferProcess streamInit 5 = (streamInit, .ok) :=
  c9_not_driving_noop streamInit 5 (by decide)

/-- C10: when a dequeued raw buffer has a null user-data pointer the
buffer is queued back to the transport before dequeue_buffer returns
none, so the transport pool keeps the same buffers (permuted) and nothing
is leaked to or held by the caller. -/
theorem c10_null_requeue (s : StreamSt) (b : RawBuffer) (rest : List RawBuffer)
    (hps : s.pwState = .streaming) (hdr : s.driving = true)
    (hav : s.avail = b :: rest) (hu : b.userData = none) :
    dequeueBuffer s = ({ s with avail := rest ++ [b] }, none) ∧
      ((dequeueBuffer s).1.avail).Perm s.avail ∧
      (dequeueBuffer s).1.held = s.held := by
  have hmain : dequeueBuffer s = ({ s with avail := rest ++ [b] }, none) := by
    unfold dequeueBuffer
    rcases s with ⟨ps, dr, av, he, qu, ot, tf, pr⟩
    simp only at hps hdr hav
    subst hps
    subst hdr
    subst hav
    simp [hu]
  refine ⟨hmain, ?_, ?_⟩
  · rw [hmain, hav]
    exact List.perm_append_singleton b rest
  · rw [hmain]

/-- C10 witness: the sample state with an unstamped head buffer requeues
it, keeping the pool as a permutation and the held list untouched. -/
theorem c10_null_requeue_witness :
    dequeueBuffer c10S = ({ c10S with avail := [] ++ [c1BInv] }, none) ∧
      ((dequeueBuffer c10S).1.avail).Perm c10S.avail ∧
      (dequeueBuffer c10S).1.held = c10S.held :=
  c10_null_requeue c10S c1BInv [] (by decide) (by decide) (by decide) (by decide)

end PwCapture
